import Mathlib

/-!
Shallow embedding of `parse-server-siwe-auth-adapter` (src/src/index.ts).

Modelling conventions:
  * Instants are `Int` (milliseconds since epoch); "now" is passed explicitly.
  * A SIWE message string is represented by its decomposition into lines
    (`Msg := List String`); the real string is the newline-intercalation of
    these lines.  The EIP-4361 compose/parse pair of the external `siwe`
    library (`prepareMessage` / `new SiweMessage(string)`) is modelled
    line-by-line; ISO timestamp rendering is abstracted as decimal rendering
    of the epoch instant.
  * The nonce table is a list of records with Parse object ids; each awaited
    Parse round trip (`query.first`, `nonceObject.destroy`, `save`) is an
    individually atomic step on that list.
  * External collaborators are oracle parameters: the signature verifier
    (`SIWEObject.verify`), the address checker (`isAddress` from viem), the
    generated nonce (`generateNonce`), and the success of a store write.
  * Thrown `Parse.Error`s / `SiweErrorType` sentinels become explicit typed
    outcomes; an error escaping a function without being mapped by its
    `catch` is a distinguished outcome constructor.
-/

namespace Siwe

/-- Fixed header suffix of the first line of an EIP-4361 message. -/
def headerSuffix : String := " wants you to sign in with your Ethereum account:"

/-- Field tag of the URI line. -/
def uriTag : String := "URI: "

/-- Field tag of the Version line. -/
def versionTag : String := "Version: "

/-- Field tag of the Chain ID line. -/
def chainTag : String := "Chain ID: "

/-- Field tag of the Nonce line. -/
def nonceTag : String := "Nonce: "

/-- Field tag of the Issued At line. -/
def issuedTag : String := "Issued At: "

/-- Field tag of the Expiration Time line. -/
def expTag : String := "Expiration Time: "

/-- Drop the first `n` characters of a string. -/
def strDropLeft (s : String) (n : Nat) : String := ⟨s.data.drop n⟩

/-- Keep the first `n` characters of a string. -/
def strTakeLeft (s : String) (n : Nat) : String := ⟨s.data.take n⟩

/-- Boolean prefix test on the underlying character lists. -/
def strStarts (s p : String) : Bool := p.data.isPrefixOf s.data

/-- Boolean suffix test on the underlying character lists. -/
def strEnds (s p : String) : Bool := p.data.isSuffixOf s.data

/-- A message, represented by its list of lines. -/
abbrev Msg := List String

/-- The structured fields an EIP-4361 parser recovers from a message. -/
structure ParsedSiwe where
  domain : String
  address : String
  statement : String
  uri : String
  version : String
  chainId : String
  nonce : String
  issuedAt : String
  expirationTime : String
deriving DecidableEq

/-- Compose the canonical EIP-4361 message, as the siwe library's
`prepareMessage` does for the field set the adapter passes (domain, address,
statement, uri, version, chainId, nonce, auto-generated issuedAt,
expirationTime), one list entry per line of the message string. -/
def prepareMessage (domain address statement uri version : String)
    (chainId : Int) (nonce : String) (issuedAt expirationTime : Int) : Msg :=
  [ domain ++ headerSuffix,
    address,
    "",
    statement,
    "",
    uriTag ++ uri,
    versionTag ++ version,
    chainTag ++ toString chainId,
    nonceTag ++ nonce,
    issuedTag ++ issuedAt.repr,
    expTag ++ expirationTime.repr ]

/-- Parse a message into its structured fields, as the siwe library's
`SiweMessage` constructor does; `none` models the constructor throwing on a
string that does not match the EIP-4361 shape. -/
def parseSiweMessage (msg : Msg) : Option ParsedSiwe :=
  match msg with
  | [l0, l1, "", l3, "", l5, l6, l7, l8, l9, l10] =>
    if strEnds l0 headerSuffix && strStarts l5 uriTag && strStarts l6 versionTag &&
       strStarts l7 chainTag && strStarts l8 nonceTag && strStarts l9 issuedTag &&
       strStarts l10 expTag then
      some
        { domain := strTakeLeft l0 (l0.data.length - headerSuffix.data.length)
          address := l1
          statement := l3
          uri := strDropLeft l5 uriTag.data.length
          version := strDropLeft l6 versionTag.data.length
          chainId := strDropLeft l7 chainTag.data.length
          nonce := strDropLeft l8 nonceTag.data.length
          issuedAt := strDropLeft l9 issuedTag.data.length
          expirationTime := strDropLeft l10 expTag.data.length }
    else none
  | _ => none

/-- Adapter configuration (`SiweOptions` in src/src/index.ts, lines 14-20). -/
structure SiweOptions where
  domain : String
  statement : String
  version : String
  preventReplay : Bool
  messageValidityInMs : Int
deriving DecidableEq

/-- The proof envelope a client submits (`AuthData`, lines 7-12). -/
structure AuthData where
  message : Msg
  signature : String
  nonce : String
  address : String

/-- A row of the `Nonce` table: Parse objectId, `nonce`, `expirationTime`. -/
structure NonceRecord where
  id : Nat
  nonce : String
  expirationTime : Int
deriving DecidableEq

/-- The nonce table's contents. -/
abbrev NonceStore := List NonceRecord

/-- The typed rejection reasons of `validateAuthData`: the three binding
mismatches thrown at lines 72-80 and the three `catch`-mapped reasons of
lines 97-112. -/
inductive Rejection
  | invalidDomain
  | invalidStatement
  | invalidVersion
  | invalidSignature
  | messageExpired
  | unknownError
deriving DecidableEq

/-- Outcome of one `validateAuthData` invocation.  `success` is the promise
resolving (with `undefined` - the function returns no value); `rejected r` is
a thrown `Parse.Error` with the message corresponding to `r`; `parseFailure`
is an error thrown by `new SiweMessage(message)` at line 70, which sits
outside the `try` block and therefore escapes unmapped. -/
inductive VOutcome
  | success
  | rejected (r : Rejection)
  | parseFailure
deriving DecidableEq

/-- Result of the external `SIWEObject.verify({signature, nonce})` call:
it either resolves, or rejects with a `SiweErrorType` sentinel that the
`catch` at lines 97-112 classifies as expired, invalid-signature, or other. -/
inductive VerifyResult
  | valid
  | invalidSignature
  | expiredMessage
  | otherError
deriving DecidableEq

/-- The `query.first` round trip of lines 88-91: first record whose `nonce`
equals the claimed token and whose `expirationTime` is strictly greater than
now (`query.greaterThan`). -/
def nonceLookup (nonce : String) (now : Int) (store : NonceStore) :
    Option NonceRecord :=
  store.find? (fun r => r.nonce == nonce && now < r.expirationTime)

/-- The `nonceObject.destroy` round trip of line 95: deletes the row with the
fetched object's id; destroying an object that is no longer present fails
(Parse object-not-found), reported by the `false` flag. -/
def nonceDestroy (r : NonceRecord) (store : NonceStore) : Bool × NonceStore :=
  if store.any (fun x => x.id == r.id) then
    (true, store.filter (fun x => x.id != r.id))
  else
    (false, store)

/-- What an invocation does after its `query.first` returned a record `r`:
the separate `destroy` round trip, run against whatever the store holds at
that moment.  A failing destroy is an error reaching the `catch`'s default
branch, hence the unknown-error rejection. -/
def consumeAfterLookup (r : NonceRecord) (store : NonceStore) :
    VOutcome × NonceStore :=
  match nonceDestroy r store with
  | (true, store') => (.success, store')
  | (false, store') => (.rejected .unknownError, store')

/-- The replay-prevention section of `validateAuthData` (lines 87-96) run
sequentially: look the nonce up, throw the expired sentinel when nothing is
found (mapped to the expired rejection by the catch), otherwise destroy the
fetched record. -/
def consumeNonce (nonce : String) (now : Int) (store : NonceStore) :
    VOutcome × NonceStore :=
  match nonceLookup nonce now store with
  | none => (.rejected .messageExpired, store)
  | some r => consumeAfterLookup r store

/-- Result of the store-free part of `validateAuthData` (lines 66-87):
either the outcome is already decided, or the invocation must still consume
the claimed nonce from the store. -/
inductive PreOutcome
  | finished (out : VOutcome)
  | needsConsume (nonce : String)
deriving DecidableEq

/-- The store-free part of `validateAuthData`: parse the message (line 70,
outside the try block), compare domain, statement and version against the
configuration in that order (lines 72-80), then call the external verifier
(lines 83-86) and classify its rejection via the catch (lines 97-112).
Only a verified proof with `preventReplay` set goes on to touch the store. -/
def validatePre (authData : AuthData) (options : SiweOptions)
    (verify : Msg → String → String → VerifyResult) : PreOutcome :=
  match parseSiweMessage authData.message with
  | none => .finished .parseFailure
  | some m =>
    if m.domain ≠ options.domain then .finished (.rejected .invalidDomain)
    else if m.statement ≠ options.statement then
      .finished (.rejected .invalidStatement)
    else if m.version ≠ options.version then
      .finished (.rejected .invalidVersion)
    else
      match verify authData.message authData.signature authData.nonce with
      | .valid =>
        if options.preventReplay then .needsConsume authData.nonce
        else .finished .success
      | .invalidSignature => .finished (.rejected .invalidSignature)
      | .expiredMessage => .finished (.rejected .messageExpired)
      | .otherError => .finished (.rejected .unknownError)

/-- One sequential invocation of `SiweAdapter.validateAuthData`
(src/src/index.ts lines 66-113), returning its outcome and the store it
leaves behind. -/
def validateAuthData (authData : AuthData) (options : SiweOptions)
    (verify : Msg → String → String → VerifyResult) (now : Int)
    (store : NonceStore) : VOutcome × NonceStore :=
  match validatePre authData options verify with
  | .finished out => (out, store)
  | .needsConsume nonce => consumeNonce nonce now store

/-- Challenge request (`SiweChallengeData`, lines 27-36): a discriminated
union of the full-message mode and the minimal nonce-expiration mode.  The
chain identifier is a rational, modelling an arbitrary JavaScript number so
that `Number.isInteger` is expressible. -/
inductive SiweChallengeData
  | message (address : String) (uri : String) (chainId : ℚ)
  | nonceExpiration

/-- Errors a `challenge` invocation can throw: the three `INVALID_JSON`
request rejections of lines 125-135, or the store-write failure of line 142
propagating out of the function. -/
inductive ChallengeError
  | invalidChainId
  | invalidAddress
  | uriRequired
  | storageFailure
deriving DecidableEq

/-- Value returned by `challenge` (lines 145-163): the minimal pair, or the
composed ready-to-sign message plus the nonce. -/
inductive ChallengeResponse
  | nonceExpiration (nonce : String) (expirationTime : Int)
  | message (msg : Msg) (nonce : String)
deriving DecidableEq

/-- Helper `getExpirationTime` (lines 204-208): now plus the validity
window. -/
def getExpirationTime (now : Int) (messageValidityInMs : Int) : Int :=
  now + messageValidityInMs

/-- The request-validation block of `challenge` (lines 124-136), run only in
full-message mode: chain id must be a positive integer, the address must
satisfy the external checker, the uri must be non-empty; first failure wins. -/
def challengeCheck (challengeData : SiweChallengeData)
    (isAddr : String → Bool) : Option ChallengeError :=
  match challengeData with
  | .message address uri chainId =>
    if chainId.den ≠ 1 ∨ chainId ≤ 0 then some .invalidChainId
    else if isAddr address = false then some .invalidAddress
    else if uri = "" then some .uriRequired
    else none
  | .nonceExpiration => none

/-- One invocation of `SiweAdapter.challenge` (lines 115-164).  Oracles:
`isAddr` is viem's `isAddress`, `nonce` the value `generateNonce` produced,
`saveOk` whether the `nonceObject.save` round trip succeeds, `nextId` the
objectId the store assigns to the new row.  Returns the thrown error or the
response, together with the store left behind. -/
def challenge (challengeData : SiweChallengeData) (options : SiweOptions)
    (isAddr : String → Bool) (nonce : String) (now : Int) (saveOk : Bool)
    (store : NonceStore) (nextId : Nat) :
    Except ChallengeError ChallengeResponse × NonceStore :=
  let expirationTime := getExpirationTime now options.messageValidityInMs
  match challengeCheck challengeData isAddr with
  | some e => (.error e, store)
  | none =>
    if options.preventReplay ∧ saveOk = false then (.error .storageFailure, store)
    else
      let store' :=
        if options.preventReplay then store ++ [⟨nextId, nonce, expirationTime⟩]
        else store
      match challengeData with
      | .nonceExpiration => (.ok (.nonceExpiration nonce expirationTime), store')
      | .message address uri chainId =>
        (.ok (.message
          (prepareMessage options.domain address options.statement uri
            options.version chainId.num nonce now expirationTime) nonce), store')

/-- A JavaScript value, as far as `validateOptions`'s truthiness and typeof
checks can distinguish one.  Numbers are modelled as the integers together
with the distinguished NaN: among floating-point values only NaN behaves
differently from a same-signed integer under the truthiness, typeof and
non-positivity tests the function performs. -/
inductive JSVal
  | str (s : String)
  | boolean (b : Bool)
  | num (n : Int)
  | nan
  | undef
deriving DecidableEq

/-- JavaScript truthiness of a `JSVal` (NaN is falsy). -/
def JSVal.truthy : JSVal → Bool
  | .str s => s != ""
  | .boolean b => b
  | .num n => n != 0
  | .nan => false
  | .undef => false

/-- Whether `typeof v` is "string". -/
def JSVal.isString : JSVal → Bool
  | .str _ => true
  | _ => false

/-- Whether `typeof v` is "boolean". -/
def JSVal.isBoolean : JSVal → Bool
  | .boolean _ => true
  | _ => false

/-- Whether `typeof v` is "number"; in JavaScript, typeof NaN is "number". -/
def JSVal.isNumber : JSVal → Bool
  | .num _ => true
  | .nan => true
  | _ => false

/-- Whether `v <= 0` holds for the value: false for non-numbers (the typeof
guard fires first in the source) and false for NaN, every comparison with
which is false in JavaScript. -/
def JSVal.nonPositiveNum : JSVal → Bool
  | .num n => decide (n ≤ 0)
  | _ => false

/-- Whether the value is a genuinely positive numeric value - the
well-formedness the claim requires of the validity window.  NaN is a number
by typeof but not a positive number. -/
def JSVal.isPositiveNum : JSVal → Bool
  | .num n => decide (0 < n)
  | _ => false

/-- The raw, not yet validated `options` object handed to `validateOptions`:
each field may be any JavaScript value. -/
structure RawSiweOptions where
  domain : JSVal
  statement : JSVal
  version : JSVal
  preventReplay : JSVal
  messageValidityInMs : JSVal
deriving DecidableEq

/-- The errors `validateOptions` throws, one per failing check, in source
order (lines 168-196). -/
inductive ConfigError
  | missingOptions
  | invalidDomain
  | invalidStatement
  | invalidVersion
  | invalidPreventReplay
  | invalidValidity
  | invalidModule
deriving DecidableEq

/-- `SiweAdapter.validateOptions` (lines 166-197): the options object must be
present; domain, statement, version must be truthy strings; preventReplay a
genuine boolean; messageValidityInMs a number greater than zero; and the
module an instance of `SiweAdapter` (`moduleIsAdapter`).  First failing check
throws. -/
def validateOptions (siweOptions : Option RawSiweOptions)
    (moduleIsAdapter : Bool) : Except ConfigError Unit :=
  match siweOptions with
  | none => .error .missingOptions
  | some o =>
    if !o.domain.truthy || !o.domain.isString then .error .invalidDomain
    else if !o.statement.truthy || !o.statement.isString then
      .error .invalidStatement
    else if !o.version.truthy || !o.version.isString then
      .error .invalidVersion
    else if !o.preventReplay.isBoolean then .error .invalidPreventReplay
    else if !o.messageValidityInMs.isNumber ||
        o.messageValidityInMs.nonPositiveNum then
      .error .invalidValidity
    else if !moduleIsAdapter then .error .invalidModule
    else .ok ()

/-- Sample configuration used by the concrete witnesses. -/
def sampleOptions : SiweOptions :=
  { domain := "example.com"
    statement := "Sign in"
    version := "1"
    preventReplay := true
    messageValidityInMs := 60000 }

/-- A message composed under `sampleOptions` with nonce "n1". -/
def sampleMessage : Msg :=
  prepareMessage "example.com" "0xAbC" "Sign in" "https://example.com/login"
    "1" 1 "n1" 0 60000

/-- A proof envelope presenting `sampleMessage` and nonce "n1". -/
def sampleAuthData : AuthData :=
  { message := sampleMessage
    signature := "0xsig"
    nonce := "n1"
    address := "0xAbC" }

/-- A verifier oracle that accepts every proof. -/
def sampleVerify : Msg → String → String → VerifyResult := fun _ _ _ => .valid

/-- A store holding the single unconsumed record for nonce "n1". -/
def sampleStore : NonceStore := [⟨0, "n1", 100⟩]

theorem strStarts_append (p s : String) : strStarts (p ++ s) p = true := by
  simp only [strStarts, String.data_append, List.isPrefixOf_iff_prefix]
  exact List.prefix_append _ _

theorem strDropLeft_append (p s : String) :
    strDropLeft (p ++ s) p.data.length = s := by
  simp only [strDropLeft, String.data_append, List.drop_left]

theorem strEnds_append (s p : String) : strEnds (s ++ p) p = true := by
  simp only [strEnds, String.data_append, List.isSuffixOf_iff_suffix]
  exact List.suffix_append _ _

theorem strTakeLeft_append (s p : String) :
    strTakeLeft (s ++ p) ((s ++ p).data.length - p.data.length) = s := by
  simp only [strTakeLeft, String.data_append, List.length_append,
    Nat.add_sub_cancel, List.take_left]

theorem parse_prepareMessage (domain address statement uri version : String)
    (chainId : Int) (nonce : String) (issuedAt expirationTime : Int) :
    parseSiweMessage (prepareMessage domain address statement uri version
        chainId nonce issuedAt expirationTime) =
      some { domain := domain, address := address, statement := statement,
             uri := uri, version := version, chainId := toString chainId,
             nonce := nonce, issuedAt := issuedAt.repr,
             expirationTime := expirationTime.repr } := by
  simp only [parseSiweMessage, prepareMessage, strStarts_append,
    strEnds_append, strDropLeft_append, strTakeLeft_append, Bool.and_self,
    if_true]

theorem nonceDestroy_of_mem (r : NonceRecord) (store : NonceStore)
    (h : r ∈ store) :
    nonceDestroy r store = (true, store.filter (fun x => x.id != r.id)) := by
  have hany : store.any (fun x => x.id == r.id) = true :=
    List.any_eq_true.mpr ⟨r, h, by simp⟩
  simp [nonceDestroy, hany]

theorem nonceDestroy_filter_self (r : NonceRecord) (store : NonceStore) :
    nonceDestroy r (store.filter (fun x => x.id != r.id)) =
      (false, store.filter (fun x => x.id != r.id)) := by
  have hany : (store.filter (fun x => x.id != r.id)).any
      (fun x => x.id == r.id) = false := by
    rw [List.any_eq_false]
    intro x hx
    have := (List.mem_filter.mp hx).2
    simpa using this
  simp [nonceDestroy, hany]

theorem lookup_none_after_consume (store : NonceStore) (n : String)
    (now now₂ : Int) (r : NonceRecord)
    (huniq : store.countP (fun x => x.nonce == n) ≤ 1)
    (hfind : nonceLookup n now store = some r) :
    nonceLookup n now₂ (store.filter (fun x => x.id != r.id)) = none := by
  have hfind' : store.find?
      (fun x => x.nonce == n && now < x.expirationTime) = some r := hfind
  have hr_mem : r ∈ store := List.mem_of_find?_eq_some hfind'
  have hr_p := List.find?_some hfind'
  have hr_n : r.nonce = n := by
    have := (Bool.and_eq_true .. |>.mp hr_p).1
    simpa using this
  obtain ⟨s₁, s₂, rfl⟩ := List.append_of_mem hr_mem
  have hcount : (s₁.countP (fun x => x.nonce == n)) = 0 ∧
      (s₂.countP (fun x => x.nonce == n)) = 0 := by
    rw [List.countP_append, List.countP_cons] at huniq
    rw [if_pos (show ((r.nonce == n) = true) by simpa using hr_n)] at huniq
    constructor <;> omega
  have hnone : ∀ x ∈ s₁ ++ r :: s₂, x.nonce = n → x = r := by
    intro x hx hxn
    rcases List.mem_append.mp hx with hx₁ | hx₂
    · exfalso
      have := List.countP_eq_zero.mp hcount.1 x hx₁
      simp [hxn] at this
    · rcases List.mem_cons.mp hx₂ with h | hx₂
      · exact h
      · exfalso
        have := List.countP_eq_zero.mp hcount.2 x hx₂
        simp [hxn] at this
  rw [nonceLookup, List.find?_eq_none]
  intro x hx
  obtain ⟨hxmem, hxid⟩ := List.mem_filter.mp hx
  intro hp
  have hxn : x.nonce = n := by
    have := (Bool.and_eq_true .. |>.mp hp).1
    simpa using this
  have : x = r := hnone x hxmem hxn
  subst this
  simp at hxid

theorem validatePre_finished_success (authData : AuthData)
    (options : SiweOptions) (verify : Msg → String → String → VerifyResult)
    (h : validatePre authData options verify = .finished .success) :
    options.preventReplay = false := by
  unfold validatePre at h
  cases hp : parseSiweMessage authData.message <;> simp only [hp] at h
  · simp at h
  · rename_i m
    by_cases hd : m.domain = options.domain
    · rw [if_neg (not_not.mpr hd)] at h
      by_cases hs : m.statement = options.statement
      · rw [if_neg (not_not.mpr hs)] at h
        by_cases hv : m.version = options.version
        · rw [if_neg (not_not.mpr hv)] at h
          cases hver : verify authData.message authData.signature
              authData.nonce <;> rw [hver] at h
          · by_cases hpr : options.preventReplay = true
            · rw [if_pos hpr] at h; simp at h
            · simpa using hpr
          · simp at h
          · simp at h
          · simp at h
        · rw [if_pos hv] at h; simp at h
      · rw [if_pos hs] at h; simp at h
    · rw [if_pos hd] at h; simp at h

theorem validatePre_needsConsume_inv (authData : AuthData)
    (options : SiweOptions) (verify : Msg → String → String → VerifyResult)
    (n : String)
    (h : validatePre authData options verify = .needsConsume n) :
    n = authData.nonce ∧ options.preventReplay = true ∧
      ∃ m, parseSiweMessage authData.message = some m ∧
        m.domain = options.domain ∧ m.statement = options.statement ∧
        m.version = options.version ∧
        verify authData.message authData.signature authData.nonce = .valid := by
  unfold validatePre at h
  cases hp : parseSiweMessage authData.message <;> simp only [hp] at h
  · simp at h
  · rename_i m
    by_cases hd : m.domain = options.domain
    · rw [if_neg (not_not.mpr hd)] at h
      by_cases hs : m.statement = options.statement
      · rw [if_neg (not_not.mpr hs)] at h
        by_cases hv : m.version = options.version
        · rw [if_neg (not_not.mpr hv)] at h
          cases hver : verify authData.message authData.signature
              authData.nonce <;> rw [hver] at h
          · by_cases hpr : options.preventReplay = true
            · rw [if_pos hpr] at h
              injection h with h'
              exact ⟨h'.symm, hpr, m, rfl, hd, hs, hv, rfl⟩
            · rw [if_neg hpr] at h; simp at h
          · simp at h
          · simp at h
          · simp at h
        · rw [if_pos hv] at h; simp at h
      · rw [if_pos hs] at h; simp at h
    · rw [if_pos hd] at h; simp at h

theorem validatePre_of_valid (authData : AuthData) (options : SiweOptions)
    (verify : Msg → String → String → VerifyResult) (m : ParsedSiwe)
    (hp : parseSiweMessage authData.message = some m)
    (hd : m.domain = options.domain) (hs : m.statement = options.statement)
    (hv : m.version = options.version)
    (hpr : options.preventReplay = true)
    (hok : verify authData.message authData.signature authData.nonce = .valid) :
    validatePre authData options verify = .needsConsume authData.nonce := by
  unfold validatePre
  rw [hp]
  simp [hd, hs, hv, hpr, hok]

theorem validatePre_of_expired (authData : AuthData) (options : SiweOptions)
    (verify : Msg → String → String → VerifyResult) (m : ParsedSiwe)
    (hp : parseSiweMessage authData.message = some m)
    (hd : m.domain = options.domain) (hs : m.statement = options.statement)
    (hv : m.version = options.version)
    (hexp : verify authData.message authData.signature authData.nonce =
      .expiredMessage) :
    validatePre authData options verify =
      .finished (.rejected .messageExpired) := by
  unfold validatePre
  rw [hp]
  simp [hd, hs, hv, hexp]

/-- C1: with `preventReplay` true, if `validateAuthData` accepts a proof
once, a second sequential invocation with the same proof against the store
the first invocation left behind rejects with the expired/replayed reason.
Hypotheses: the store holds at most one record for the proof's token (the
invariant the issuer maintains, nonces being fresh per issuance), and the
external verifier on the second run either still accepts the proof or
reports the message expired (its two possible answers for a proof it
accepted earlier, signature validity being time-independent). -/
theorem c1_second_validation_rejects (authData : AuthData)
    (options : SiweOptions)
    (verify₁ verify₂ : Msg → String → String → VerifyResult)
    (now₁ now₂ : Int) (store : NonceStore)
    (hpr : options.preventReplay = true)
    (huniq : store.countP (fun x => x.nonce == authData.nonce) ≤ 1)
    (hv₂ : verify₂ authData.message authData.signature authData.nonce =
        .valid ∨
      verify₂ authData.message authData.signature authData.nonce =
        .expiredMessage)
    (h1 : (validateAuthData authData options verify₁ now₁ store).1 =
      .success) :
    (validateAuthData authData options verify₂ now₂
        (validateAuthData authData options verify₁ now₁ store).2).1 =
      .rejected .messageExpired := by
  cases hpre : validatePre authData options verify₁ with
  | finished out =>
    have hout : out = .success := by
      have hrun : validateAuthData authData options verify₁ now₁ store =
          (out, store) := by
        unfold validateAuthData; rw [hpre]
      rw [hrun] at h1; exact h1
    subst hout
    have := validatePre_finished_success _ _ _ hpre
    simp [hpr] at this
  | needsConsume n =>
    obtain ⟨hn, hpr', m, hp, hd, hs, hv, hver₁⟩ :=
      validatePre_needsConsume_inv _ _ _ _ hpre
    subst hn
    have hrun1def : validateAuthData authData options verify₁ now₁ store =
        consumeNonce authData.nonce now₁ store := by
      unfold validateAuthData; rw [hpre]
    cases hlk : nonceLookup authData.nonce now₁ store with
    | none =>
      rw [hrun1def] at h1
      simp [consumeNonce, hlk] at h1
    | some r =>
      have hmem : r ∈ store := by
        have hlk' : store.find?
            (fun x => x.nonce == authData.nonce && now₁ < x.expirationTime) =
              some r := hlk
        exact List.mem_of_find?_eq_some hlk'
      have hrun1 : validateAuthData authData options verify₁ now₁ store =
          (.success, store.filter (fun x => x.id != r.id)) := by
        rw [hrun1def]
        simp only [consumeNonce, hlk, consumeAfterLookup,
          nonceDestroy_of_mem r store hmem]
      rw [hrun1]
      rcases hv₂ with hval | hexp
      · have hpre2 : validatePre authData options verify₂ =
            .needsConsume authData.nonce :=
          validatePre_of_valid _ _ _ _ hp hd hs hv hpr hval
        have hnone := lookup_none_after_consume store authData.nonce now₁
          now₂ r huniq hlk
        simp [validateAuthData, hpre2, consumeNonce, hnone]
      · have hpre2 := validatePre_of_expired _ _ _ _ hp hd hs hv hexp
        simp [validateAuthData, hpre2]

/-- Witness for c1_second_validation_rejects at a concrete proof,
configuration, and single-record store. -/
theorem c1_witness :
    (validateAuthData sampleAuthData sampleOptions sampleVerify 60
        (validateAuthData sampleAuthData sampleOptions sampleVerify 50
          sampleStore).2).1 = .rejected .messageExpired :=
  c1_second_validation_rejects sampleAuthData sampleOptions sampleVerify
    sampleVerify 50 60 sampleStore rfl (by decide) (Or.inl rfl) (by decide)

theorem consumeNonce_cases (n : String) (now : Int) (store : NonceStore) :
    (consumeNonce n now store).1 = .success ∨
    ∃ r, (consumeNonce n now store).1 = .rejected r := by
  unfold consumeNonce consumeAfterLookup
  cases hlk : nonceLookup n now store <;> simp only [hlk]
  · right; exact ⟨_, rfl⟩
  · rename_i rec
    rcases hdes : nonceDestroy rec store with ⟨ok, store₂⟩
    cases ok <;> simp [hdes]

theorem validatePre_parsed_cases (authData : AuthData) (options : SiweOptions)
    (verify : Msg → String → String → VerifyResult) (m : ParsedSiwe)
    (hp : parseSiweMessage authData.message = some m) :
    validatePre authData options verify = .needsConsume authData.nonce ∨
    validatePre authData options verify = .finished .success ∨
    ∃ r, validatePre authData options verify = .finished (.rejected r) := by
  unfold validatePre
  simp only [hp]
  by_cases hd : m.domain = options.domain
  · rw [if_neg (not_not.mpr hd)]
    by_cases hs : m.statement = options.statement
    · rw [if_neg (not_not.mpr hs)]
      by_cases hv : m.version = options.version
      · rw [if_neg (not_not.mpr hv)]
        cases hver : verify authData.message authData.signature
            authData.nonce <;> simp only [hver]
        · by_cases hpr : options.preventReplay = true
          · rw [if_pos hpr]; left; rfl
          · rw [if_neg hpr]; right; left; rfl
        · right; right; exact ⟨_, rfl⟩
        · right; right; exact ⟨_, rfl⟩
        · right; right; exact ⟨_, rfl⟩
      · rw [if_pos hv]; right; right; exact ⟨_, rfl⟩
    · rw [if_pos hs]; right; right; exact ⟨_, rfl⟩
  · rw [if_pos hd]; right; right; exact ⟨_, rfl⟩

/-- C2 counterexample: two concurrent validations of the same valid proof,
with preventReplay on, interleaved so that both `query.first` round trips run
before either `destroy`: both observe the single record, the first destroy
succeeds (that invocation accepts), the second destroy fails on the
already-deleted row and its invocation rejects with the unknown-error
reason, not the expired/replayed one - the consumption is a check-then-act
pair of two separate store round trips, not an atomic find-and-delete. -/
theorem c2_counterexample :
    validatePre sampleAuthData sampleOptions sampleVerify =
      .needsConsume "n1" ∧
    nonceLookup "n1" 50 sampleStore = some ⟨0, "n1", 100⟩ ∧
    consumeAfterLookup ⟨0, "n1", 100⟩ sampleStore = (.success, []) ∧
    consumeAfterLookup ⟨0, "n1", 100⟩ [] = (.rejected .unknownError, []) ∧
    VOutcome.rejected .unknownError ≠ .rejected .messageExpired := by
  decide

/-- C2 amended: nonce consumption is a find (`query.first`) followed by a
separate destroy round trip.  When two concurrent invocations both complete
the find against the same store before either destroy runs - both observing
the record - the invocation whose destroy runs first succeeds and the other
invocation's destroy fails, rejecting it with the unknown-error reason
rather than the expired/replayed one; the one-success/rest-expired pattern
is guaranteed only for sequential invocations. -/
theorem c2_race_check_then_act (n : String) (now now₂ : Int)
    (r : NonceRecord) (store : NonceStore)
    (hfind : nonceLookup n now store = some r)
    (_hfind₂ : nonceLookup n now₂ store = some r) :
    (consumeAfterLookup r store).1 = .success ∧
    (consumeAfterLookup r (consumeAfterLookup r store).2).1 =
      .rejected .unknownError := by
  have hmem : r ∈ store := by
    have hfind' : store.find?
        (fun x => x.nonce == n && now < x.expirationTime) = some r := hfind
    exact List.mem_of_find?_eq_some hfind'
  have h1 := nonceDestroy_of_mem r store hmem
  constructor
  · simp [consumeAfterLookup, h1]
  · simp [consumeAfterLookup, h1, nonceDestroy_filter_self]

/-- Witness for c2_race_check_then_act at the concrete single-record store. -/
theorem c2_witness :
    (consumeAfterLookup ⟨0, "n1", 100⟩ sampleStore).1 = .success ∧
    (consumeAfterLookup ⟨0, "n1", 100⟩
        (consumeAfterLookup ⟨0, "n1", 100⟩ sampleStore).2).1 =
      .rejected .unknownError :=
  c2_race_check_then_act "n1" 50 60 ⟨0, "n1", 100⟩ sampleStore (by decide)
    (by decide)

/-- C3 counterexample: on a message that does not parse as a SIWE message,
the invocation's outcome is the parser's error escaping unmapped (the
`new SiweMessage` construction at line 70 sits outside the try/catch), which
is none of the seven typed terminal states the claim allows. -/
theorem c3_counterexample :
    (validateAuthData ⟨["not a siwe message"], "0xsig", "n1", "0xAbC"⟩
        sampleOptions sampleVerify 0 []).1 = .parseFailure ∧
    VOutcome.parseFailure ≠ .success ∧
    VOutcome.parseFailure ≠ .rejected .invalidDomain ∧
    VOutcome.parseFailure ≠ .rejected .invalidStatement ∧
    VOutcome.parseFailure ≠ .rejected .invalidVersion ∧
    VOutcome.parseFailure ≠ .rejected .invalidSignature ∧
    VOutcome.parseFailure ≠ .rejected .messageExpired ∧
    VOutcome.parseFailure ≠ .rejected .unknownError := by
  decide

/-- C3 amended: for every input whose message parses as a SIWE message,
validateAuthData terminates in exactly one outcome - success (carrying no
payload: the source function returns no value) or a rejection with exactly
one of the six typed reasons.  An unparsable message instead escapes with
the parser's own unmapped error. -/
theorem c3_parsed_input_typed_outcome (authData : AuthData)
    (options : SiweOptions) (verify : Msg → String → String → VerifyResult)
    (now : Int) (store : NonceStore) (m : ParsedSiwe)
    (hp : parseSiweMessage authData.message = some m) :
    (validateAuthData authData options verify now store).1 = .success ∨
    ∃ r, (validateAuthData authData options verify now store).1 =
      .rejected r := by
  rcases validatePre_parsed_cases authData options verify m hp with
    h | h | ⟨r, h⟩
  · simp only [validateAuthData, h]
    exact consumeNonce_cases authData.nonce now store
  · left; simp [validateAuthData, h]
  · right; exact ⟨r, by simp [validateAuthData, h]⟩

/-- Witness for c3_parsed_input_typed_outcome at a concrete parsable proof. -/
theorem c3_witness :
    (validateAuthData sampleAuthData sampleOptions sampleVerify 50
        sampleStore).1 = .success ∨
    ∃ r, (validateAuthData sampleAuthData sampleOptions sampleVerify 50
        sampleStore).1 = .rejected r :=
  c3_parsed_input_typed_outcome sampleAuthData sampleOptions sampleVerify 50
    sampleStore _ rfl

/-- C4: a proof whose parsed statement differs from the configured statement
(the domain having matched; the binding checks run in order domain,
statement, version, first mismatch short-circuiting) is rejected with the
invalid-statement reason with the store untouched, and on any binding
mismatch the outcome is the same whatever the external verifier would
answer - the verifier is never invoked before the binding checks pass. -/
theorem c4_statement_mismatch_short_circuits (authData : AuthData)
    (options : SiweOptions) (verify : Msg → String → String → VerifyResult)
    (now : Int) (store : NonceStore) (m : ParsedSiwe)
    (hp : parseSiweMessage authData.message = some m) :
    ((m.domain = options.domain ∧ m.statement ≠ options.statement) →
      validateAuthData authData options verify now store =
        (.rejected .invalidStatement, store)) ∧
    ((m.domain ≠ options.domain ∨ m.statement ≠ options.statement ∨
        m.version ≠ options.version) →
      ∀ verify₂, validateAuthData authData options verify now store =
        validateAuthData authData options verify₂ now store) := by
  constructor
  · rintro ⟨hd, hs⟩
    simp [validateAuthData, validatePre, hp, hd, hs]
  · intro hmis verify₂
    by_cases hd : m.domain = options.domain
    · by_cases hs : m.statement = options.statement
      · by_cases hv : m.version = options.version
        · exfalso; rcases hmis with h | h | h <;> simp_all
        · simp [validateAuthData, validatePre, hp, hd, hs, hv]
      · simp [validateAuthData, validatePre, hp, hd, hs]
    · simp [validateAuthData, validatePre, hp, hd]

/-- A message composed with a statement differing from `sampleOptions`'s. -/
def mismatchMessage : Msg :=
  prepareMessage "example.com" "0xAbC" "Hack in" "https://example.com/login"
    "1" 1 "n1" 0 60000

/-- A proof envelope presenting `mismatchMessage`. -/
def mismatchAuthData : AuthData :=
  { message := mismatchMessage
    signature := "0xsig"
    nonce := "n1"
    address := "0xAbC" }

/-- Witness for c4_statement_mismatch_short_circuits at a concrete proof
whose statement differs from the configuration's. -/
theorem c4_witness :
    validateAuthData mismatchAuthData sampleOptions sampleVerify 50
        sampleStore = (.rejected .invalidStatement, sampleStore) :=
  (c4_statement_mismatch_short_circuits mismatchAuthData sampleOptions
      sampleVerify 50 sampleStore _ rfl).1 (by decide)

/-- C6: with preventReplay true and a proof passing the binding checks and
signature verification, when every stored record for the claimed token has
its expiration exactly equal to the current time, the lookup - which
requires strictly greater (`query.greaterThan`), not greater-or-equal -
finds nothing and validateAuthData rejects with the expired/replayed
reason: a record expiring exactly now is already expired. -/
theorem c6_expiration_boundary_strict (authData : AuthData)
    (options : SiweOptions) (verify : Msg → String → String → VerifyResult)
    (now : Int) (store : NonceStore) (m : ParsedSiwe)
    (hp : parseSiweMessage authData.message = some m)
    (hd : m.domain = options.domain) (hs : m.statement = options.statement)
    (hv : m.version = options.version)
    (hpr : options.preventReplay = true)
    (hok : verify authData.message authData.signature authData.nonce =
      .valid)
    (hexp : ∀ r ∈ store, r.nonce = authData.nonce →
      r.expirationTime = now) :
    validateAuthData authData options verify now store =
      (.rejected .messageExpired, store) := by
  have hpre := validatePre_of_valid _ _ _ _ hp hd hs hv hpr hok
  have hnone : nonceLookup authData.nonce now store = none := by
    rw [nonceLookup, List.find?_eq_none]
    intro x hx hpx
    obtain ⟨h1, h2⟩ := Bool.and_eq_true .. |>.mp hpx
    have hxn : x.nonce = authData.nonce := by simpa using h1
    have := hexp x hx hxn
    rw [this] at h2
    simp at h2
  simp [validateAuthData, hpre, consumeNonce, hnone]

/-- Witness for c6_expiration_boundary_strict: the single record expires at
instant 100 and the lookup happens at instant 100. -/
theorem c6_witness :
    validateAuthData sampleAuthData sampleOptions sampleVerify 100
        sampleStore = (.rejected .messageExpired, sampleStore) :=
  c6_expiration_boundary_strict sampleAuthData sampleOptions sampleVerify 100
    sampleStore _ rfl rfl rfl rfl rfl rfl (by decide)

/-- The nonce a challenge response hands back (both modes return it). -/
def responseNonce : ChallengeResponse → String
  | .nonceExpiration n _ => n
  | .message _ n => n

/-- Whether a challenge response communicates the expiration instant `exp`:
directly in minimal mode, as the Expiration Time line (the message's last
line) in full-message mode. -/
def responseCarriesExpiration : ChallengeResponse → Int → Prop
  | .nonceExpiration _ e, exp => e = exp
  | .message msg _, exp => msg.getLast? = some (expTag ++ exp.repr)

/-- C5: with preventReplay true and the request well-formed, a failing store
write makes the whole challenge fail with the storage error and leaves the
store unchanged - no challenge is handed out without its guard record -
while a successful write appends the record (token, now + validity window)
before the response is returned, the record's token being exactly the
returned nonce and its expiration the expiration the response carries. -/
theorem c5_replay_guard_before_challenge (challengeData : SiweChallengeData)
    (options : SiweOptions) (isAddr : String → Bool) (nonce : String)
    (now : Int) (saveOk : Bool) (store : NonceStore) (nextId : Nat)
    (hpr : options.preventReplay = true)
    (hreq : challengeCheck challengeData isAddr = none) :
    (saveOk = false →
      challenge challengeData options isAddr nonce now saveOk store nextId =
        (.error .storageFailure, store)) ∧
    (saveOk = true →
      (challenge challengeData options isAddr nonce now saveOk store
          nextId).2 =
        store ++ [⟨nextId, nonce, now + options.messageValidityInMs⟩] ∧
      ∃ resp,
        (challenge challengeData options isAddr nonce now saveOk store
          nextId).1 = .ok resp ∧
        responseNonce resp = nonce ∧
        responseCarriesExpiration resp (now + options.messageValidityInMs)) := by
  constructor
  · intro hsave
    subst hsave
    simp [challenge, hreq, hpr]
  · intro hsave
    subst hsave
    cases challengeData with
    | nonceExpiration =>
      refine ⟨by simp [challenge, hreq, hpr, getExpirationTime], ?_⟩
      exact ⟨.nonceExpiration nonce (now + options.messageValidityInMs),
        by simp [challenge, hreq, hpr, getExpirationTime],
        rfl, rfl⟩
    | message address uri chainId =>
      refine ⟨by simp [challenge, hreq, hpr, getExpirationTime], ?_⟩
      refine ⟨.message (prepareMessage options.domain address
          options.statement uri options.version chainId.num nonce now
          (now + options.messageValidityInMs)) nonce,
        by simp [challenge, hreq, hpr, getExpirationTime], rfl, ?_⟩
      simp [responseCarriesExpiration, prepareMessage]

/-- Witness for c5_replay_guard_before_challenge: a minimal-mode challenge
whose store write fails aborts with the storage error. -/
theorem c5_witness :
    challenge .nonceExpiration sampleOptions (fun _ => true) "n9" 0 false []
        7 = (.error .storageFailure, []) :=
  (c5_replay_guard_before_challenge .nonceExpiration sampleOptions
      (fun _ => true) "n9" 0 false [] 7 rfl rfl).1 rfl

/-- C9: the request checks apply only to full-message mode - the chain id
must be a positive integer, the address must pass the external checker, the
URI must be non-empty, the first failure winning in that order - while a
minimal (nonce-expiration) request carries no such fields, undergoes none
of these checks, and can only fail on the store write. -/
theorem c9_request_checks_full_mode_only (address uri : String)
    (chainId : ℚ) (options : SiweOptions) (isAddr : String → Bool)
    (nonce : String) (now : Int) (saveOk : Bool) (store : NonceStore)
    (nextId : Nat) :
    ((chainId.den ≠ 1 ∨ chainId ≤ 0) →
      (challenge (.message address uri chainId) options isAddr nonce now
          saveOk store nextId).1 = .error .invalidChainId) ∧
    (chainId.den = 1 → 0 < chainId → isAddr address = false →
      (challenge (.message address uri chainId) options isAddr nonce now
          saveOk store nextId).1 = .error .invalidAddress) ∧
    (chainId.den = 1 → 0 < chainId → isAddr address = true → uri = "" →
      (challenge (.message address uri chainId) options isAddr nonce now
          saveOk store nextId).1 = .error .uriRequired) ∧
    (∀ e, (challenge .nonceExpiration options isAddr nonce now saveOk store
        nextId).1 = .error e → e = .storageFailure) := by
  refine ⟨?_, ?_, ?_, ?_⟩
  · intro h
    simp [challenge, challengeCheck, h]
  · intro h1 h2 h3
    have hc : ¬(chainId.den ≠ 1 ∨ chainId ≤ 0) := by
      push_neg
      exact ⟨h1, h2⟩
    simp [challenge, challengeCheck, hc, h3]
  · intro h1 h2 h3 h4
    have hc : ¬(chainId.den ≠ 1 ∨ chainId ≤ 0) := by
      push_neg
      exact ⟨h1, h2⟩
    simp [challenge, challengeCheck, hc, h3, h4]
  · intro e he
    by_cases hps : options.preventReplay = true ∧ saveOk = false
    · simp [challenge, challengeCheck, hps] at he
      exact he.symm
    · simp [challenge, challengeCheck, hps] at he

/-- Witness for c9_request_checks_full_mode_only: a malformed address is
rejected with the invalid-address error. -/
theorem c9_witness :
    (challenge (.message "nota" "https://example.com/login" 5) sampleOptions
        (fun _ => false) "n1" 0 true [] 5).1 = .error .invalidAddress :=
  (c9_request_checks_full_mode_only "nota" "https://example.com/login" 5
      sampleOptions (fun _ => false) "n1" 0 true [] 5).2.1 (by decide)
    (by decide) rfl

/-- C10: a full-message request failing the chainId, address, or URI check
makes challenge throw that request error with the nonce store unchanged:
the validation block precedes the replay-guard write, so a failed issuance
writes nothing, even with preventReplay on. -/
theorem c10_failed_request_leaves_store (address uri : String)
    (chainId : ℚ) (options : SiweOptions) (isAddr : String → Bool)
    (nonce : String) (now : Int) (saveOk : Bool) (store : NonceStore)
    (nextId : Nat) (e : ChallengeError)
    (h : challengeCheck (.message address uri chainId) isAddr = some e) :
    challenge (.message address uri chainId) options isAddr nonce now saveOk
      store nextId = (.error e, store) := by
  simp [challenge, h]

/-- Witness for c10_failed_request_leaves_store: a zero chain id is rejected
and the store stays empty although preventReplay is on and the write would
have succeeded. -/
theorem c10_witness :
    challenge (.message "0xAbC" "https://example.com/login" 0) sampleOptions
        (fun _ => true) "n1" 0 true [] 5 = (.error .invalidChainId, []) :=
  c10_failed_request_leaves_store "0xAbC" "https://example.com/login" 0
    sampleOptions (fun _ => true) "n1" 0 true [] 5 .invalidChainId
    (by decide)

/-- The newline character, over which the line-level message model is
faithful to the underlying string only for components not containing it. -/
def newline : Char := Char.ofNat 10

/-- C7: a full-message challenge that returns a composed message yields, on
parsing by the binding-validation step under the same configuration, domain,
statement, and version fields equal to the configuration's, so the binding
checks pass.  The no-newline hypotheses delimit the configurations for which
the line-level model of the message string is faithful. -/
theorem c7_challenge_message_round_trip (address uri : String)
    (chainId : ℚ) (options : SiweOptions) (isAddr : String → Bool)
    (nonce : String) (now : Int) (saveOk : Bool) (store : NonceStore)
    (nextId : Nat) (lines : Msg) (n : String) (store' : NonceStore)
    (_hnl₁ : options.domain.data.contains newline = false)
    (_hnl₂ : options.statement.data.contains newline = false)
    (_hnl₃ : options.version.data.contains newline = false)
    (h : challenge (.message address uri chainId) options isAddr nonce now
        saveOk store nextId = (.ok (.message lines n), store')) :
    ∃ p, parseSiweMessage lines = some p ∧ p.domain = options.domain ∧
      p.statement = options.statement ∧ p.version = options.version := by
  unfold challenge at h
  cases hchk : challengeCheck (.message address uri chainId) isAddr <;>
    simp only [hchk] at h
  case some e => simp at h
  case none =>
    by_cases hps : options.preventReplay = true ∧ saveOk = false
    · rw [if_pos hps] at h
      simp at h
    · rw [if_neg hps] at h
      simp only [Prod.mk.injEq, Except.ok.injEq,
        ChallengeResponse.message.injEq] at h
      obtain ⟨⟨hlines, _⟩, _⟩ := h
      subst hlines
      exact ⟨_, parse_prepareMessage _ _ _ _ _ _ _ _ _, rfl, rfl, rfl⟩

/-- Witness for c7_challenge_message_round_trip at a concrete request under
`sampleOptions`. -/
theorem c7_witness :
    ∃ p, parseSiweMessage (prepareMessage "example.com" "0xAbC" "Sign in"
        "https://example.com/login" "1" 5 "n1" 0 60000) = some p ∧
      p.domain = sampleOptions.domain ∧
      p.statement = sampleOptions.statement ∧
      p.version = sampleOptions.version :=
  c7_challenge_message_round_trip "0xAbC" "https://example.com/login" 5
    sampleOptions (fun _ => true) "n1" 0 true [] 3
    (prepareMessage "example.com" "0xAbC" "Sign in"
      "https://example.com/login" "1" 5 "n1" 0 60000)
    "n1" [⟨3, "n1", 60000⟩] (by decide) (by decide) (by decide) rfl

/-- C8 counterexample: a configuration that is well-formed except for a NaN
validity window - a value that is a number by typeof but not a positive
number, hence malformed - is accepted by `validateOptions` instead of being
rejected with the error naming the validity field: the typeof-number guard
passes and the `<= 0` comparison is false on NaN, so neither disjunct of the
check fires. -/
theorem c8_counterexample :
    validateOptions (some ⟨.str "example.com", .str "Sign in", .str "1",
      .boolean true, .nan⟩) true = .ok () ∧
    JSVal.nan.isPositiveNum = false ∧
    JSVal.nan.isNumber = true ∧
    JSVal.nan.nonPositiveNum = false :=
  ⟨rfl, rfl, rfl, rfl⟩

/-- C8 amended: validateOptions accepts every configuration whose domain,
statement and version are non-empty strings, whose preventReplay is a
genuine boolean and whose validity window is a positive number, and rejects
a malformed field with the error naming it, the checks running in the order
domain, statement, version, preventReplay, validity window (each failing
check fires whatever the later fields hold) - with one exception: a NaN
validity window, though not a positive number, passes both halves of the
`typeof !== "number" || <= 0` check and is accepted. -/
theorem c8_field_checks_amended (d s v : String) (b : Bool) (n : Int)
    (hd : d ≠ "") (hs : s ≠ "") (hv : v ≠ "") (hn : 0 < n) :
    validateOptions (some ⟨.str d, .str s, .str v, .boolean b, .num n⟩)
      true = .ok () ∧
    (∀ bad : JSVal, bad.truthy = false ∨ bad.isString = false →
      ∀ x₂ x₃ x₄ x₅ : JSVal,
        validateOptions (some ⟨bad, x₂, x₃, x₄, x₅⟩) true =
          .error .invalidDomain) ∧
    (∀ bad : JSVal, bad.truthy = false ∨ bad.isString = false →
      ∀ x₃ x₄ x₅ : JSVal,
        validateOptions (some ⟨.str d, bad, x₃, x₄, x₅⟩) true =
          .error .invalidStatement) ∧
    (∀ bad : JSVal, bad.truthy = false ∨ bad.isString = false →
      ∀ x₄ x₅ : JSVal,
        validateOptions (some ⟨.str d, .str s, bad, x₄, x₅⟩) true =
          .error .invalidVersion) ∧
    (∀ bad : JSVal, bad.isBoolean = false →
      ∀ x₅ : JSVal,
        validateOptions (some ⟨.str d, .str s, .str v, bad, x₅⟩) true =
          .error .invalidPreventReplay) ∧
    (∀ bad : JSVal, bad.isNumber = false ∨ bad.nonPositiveNum = true →
      validateOptions (some ⟨.str d, .str s, .str v, .boolean b, bad⟩)
        true = .error .invalidValidity) ∧
    (JSVal.nan.isPositiveNum = false ∧
      validateOptions (some ⟨.str d, .str s, .str v, .boolean b, .nan⟩)
        true = .ok ()) := by
  have hn' : ¬(n ≤ 0) := by omega
  refine ⟨?_, ?_, ?_, ?_, ?_, ?_, ?_⟩
  · simp [validateOptions, JSVal.truthy, JSVal.isString, JSVal.isBoolean,
      JSVal.isNumber, JSVal.nonPositiveNum, hd, hs, hv, hn']
  · intro bad hbad x₂ x₃ x₄ x₅
    cases bad <;> simp_all [validateOptions, JSVal.truthy, JSVal.isString]
  · intro bad hbad x₃ x₄ x₅
    cases bad <;> simp_all [validateOptions, JSVal.truthy, JSVal.isString]
  · intro bad hbad x₄ x₅
    cases bad <;> simp_all [validateOptions, JSVal.truthy, JSVal.isString]
  · intro bad hbad x₅
    cases bad <;> simp_all [validateOptions, JSVal.truthy, JSVal.isString,
      JSVal.isBoolean]
  · intro bad hbad
    cases bad <;> simp_all [validateOptions, JSVal.truthy, JSVal.isString,
      JSVal.isBoolean, JSVal.isNumber, JSVal.nonPositiveNum]
  · exact ⟨rfl, by simp [validateOptions, JSVal.truthy, JSVal.isString,
      JSVal.isBoolean, JSVal.isNumber, JSVal.nonPositiveNum, hd, hs, hv]⟩

/-- Witness for c8_field_checks_amended: a fully well-formed configuration
is accepted, the same configuration with a numeric domain is rejected
naming the domain, and with a NaN validity window it is accepted. -/
theorem c8_witness :
    validateOptions (some ⟨.str "example.com", .str "Sign in", .str "1",
      .boolean true, .num 60000⟩) true = .ok () ∧
    validateOptions (some ⟨.num 3, .str "Sign in", .str "1",
      .boolean true, .num 60000⟩) true = .error .invalidDomain ∧
    validateOptions (some ⟨.str "example.com", .str "Sign in", .str "1",
      .boolean true, .nan⟩) true = .ok () :=
  ⟨(c8_field_checks_amended "example.com" "Sign in" "1" true 60000
      (by decide) (by decide) (by decide) (by decide)).1,
   (c8_field_checks_amended "example.com" "Sign in" "1" true 60000
      (by decide) (by decide) (by decide) (by decide)).2.1 (.num 3)
      (Or.inr rfl) _ _ _ _,
   (c8_field_checks_amended "example.com" "Sign in" "1" true 60000
      (by decide) (by decide) (by decide) (by decide)).2.2.2.2.2.2.2⟩

end Siwe
